import Mathlib

/-!
Verification of the regeneration dispatch and prompt-construction layer of
the Paid-Feature repository (source: src/components/Controls.tsx, service
section, plus src/types.ts).

Modelling conventions of the shallow embedding:
* TypeScript strings are Lean `String`s; `string | undefined` is
  `Option String`; JavaScript truthiness of such a value is `jsTruthy`
  (an empty string and `undefined` are falsy).
* Thrown `Error` values are represented by their message string, and a
  fallible computation returns `Except String _`.
* The numeric aspect ratio is modelled as a rational number `ℚ`; the
  mapper only subtracts, takes absolute values and compares, so `ℚ`
  captures the algorithm exactly.
* The two remote services are parameters (`Backend`): each call is a
  function from the request the code builds to either a response value or
  a thrown transport error.  Functions that perform a network call also
  return the number of remote invocations made, so that "fails before any
  network call" is expressible.
-/

namespace Regen

/-! ### JavaScript string primitives -/

/-- `listStarts l p` : the character list `p` occurs at the start of `l`. -/
def listStarts : List Char → List Char → Bool
  | _, [] => true
  | [], _ :: _ => false
  | a :: as, b :: bs => a == b && listStarts as bs

/-- `listHasSub l p` : the character list `p` occurs contiguously in `l`. -/
def listHasSub (l sub : List Char) : Bool :=
  match l with
  | [] => listStarts [] sub
  | _ :: t => listStarts l sub || listHasSub t sub

/-- Model of JavaScript `s.includes(pat)`. -/
def strIncludes (s pat : String) : Bool :=
  listHasSub s.data pat.data

/-- JavaScript truthiness of a `string | undefined` value: `undefined`
and the empty string are falsy. -/
def jsTruthy : Option String → Bool
  | none => false
  | some s => !(s == "")

/-- Template-literal stringification of a `string | undefined` value:
`undefined` prints as `"undefined"`. -/
def jsToString : Option String → String
  | none => "undefined"
  | some s => s

/-- Model of the JavaScript expression `a || b` on `string | undefined`
values, as it is stringified inside a template literal. -/
def jsOrString (a b : Option String) : String :=
  if jsTruthy a then a.getD "" else jsToString b

/-! ### src/types.ts : the `ArtStyle` string enumeration -/

namespace ArtStyle

def REALISTIC : String := "Hyper-Realistic"

def CARTOON : String := "Vibrant Cartoon"

def THREE_D_PIXAR : String := "3D Pixar Style"

def ANIME : String := "Japanese Anime"

def VINTAGE_PHOTO : String := "Vintage Sepia Photograph"

def CLAYMATION : String := "Claymation Stop-motion"

def FANTASY_ART : String := "Digital Fantasy Art"

def NEON_PUNK : String := "Neon Punk"

end ArtStyle

/-- The eight named style labels, in the order the enum declares them. -/
def namedStyles : List String :=
  [ArtStyle.REALISTIC, ArtStyle.CARTOON, ArtStyle.THREE_D_PIXAR,
   ArtStyle.ANIME, ArtStyle.VINTAGE_PHOTO, ArtStyle.CLAYMATION,
   ArtStyle.FANTASY_ART, ArtStyle.NEON_PUNK]

/-- src/types.ts `RegenerationModel = 'gemini' | 'imagen'`. -/
inductive RegenerationModel where
  | gemini
  | imagen
deriving DecidableEq, Repr

/-- The string the model name interpolates to in template literals. -/
def modelName : RegenerationModel → String
  | RegenerationModel.gemini => "gemini"
  | RegenerationModel.imagen => "imagen"

/-! ### StyleCatalog : `getGeminiInstructionalPrompt`, `getImagenStyleSuffix` -/

/-- Controls.tsx `getGeminiInstructionalPrompt` : instructional prompt for
the image-to-image model; the `switch` is modelled as an `if`-chain with
the source's `default` branch last. -/
def getGeminiInstructionalPrompt (style : String) : String :=
  if style = ArtStyle.REALISTIC then
    "Recreate this image as an ultra-realistic, photorealistic, high-detail photograph. It should look like it was shot with a professional DSLR camera, with sharp focus and intricate details."
  else if style = ArtStyle.CARTOON then
    "Recreate this image as a vibrant, colorful, bold-lined cartoon illustration in a playful style. Use cel-shading, expressive characters, and clean lines."
  else if style = ArtStyle.THREE_D_PIXAR then
    "Recreate this image in the style of a modern 3D animated film, like those from Pixar. It should have soft lighting, detailed textures, and expressive, rounded characters with a friendly and appealing look."
  else if style = ArtStyle.ANIME then
    "Recreate this image as a beautiful Japanese anime scene, in the style of a critically acclaimed animation studio. It should have detailed background art, cel-shaded characters, and cinematic anime lighting."
  else if style = ArtStyle.VINTAGE_PHOTO then
    "Recreate this image as an authentic-looking vintage sepia photograph from the early 20th century. It should have a grainy texture, faded tones, and soft focus to capture a timeless moment."
  else if style = ArtStyle.CLAYMATION then
    "Recreate this image as a charming claymation stop-motion scene with a handcrafted look. The models should be textured with visible fingerprints in the clay, and have whimsical lighting."
  else if style = ArtStyle.FANTASY_ART then
    "Recreate this image as an epic digital fantasy art painting. It needs ethereal lighting, intricate details, and a mythical atmosphere, in the style of a high-fantasy book cover."
  else if style = ArtStyle.NEON_PUNK then
    "Recreate this image as a neon-drenched, cyberpunk cityscape scene. It should have glowing neon lights, rainy streets with reflections, high-tech gadgets, and a dystopian \x27neon punk\x27 aesthetic."
  else
    "Recreate this image in the style of a high-detail, cinematic image with the theme of \x27" ++ style ++ "\x27."

/-- Controls.tsx `getImagenStyleSuffix` : stylistic suffix for the
text-to-image model. -/
def getImagenStyleSuffix (style : String) : String :=
  if style = ArtStyle.REALISTIC then
    ", ultra-realistic, photorealistic, 8k, sharp focus, professional DSLR photo."
  else if style = ArtStyle.CARTOON then
    ", vibrant cartoon illustration, bold lines, cel-shaded, playful style."
  else if style = ArtStyle.THREE_D_PIXAR then
    ", in the style of a 3D Pixar animated film, soft lighting, detailed textures, expressive characters."
  else if style = ArtStyle.ANIME then
    ", beautiful Japanese anime scene, style of a top animation studio, cinematic anime lighting."
  else if style = ArtStyle.VINTAGE_PHOTO then
    ", authentic vintage sepia photograph, grainy texture, faded tones, early 20th century."
  else if style = ArtStyle.CLAYMATION then
    ", charming claymation stop-motion scene, handcrafted look, visible fingerprints in the clay."
  else if style = ArtStyle.FANTASY_ART then
    ", epic digital fantasy art painting, ethereal lighting, intricate details, mythical atmosphere."
  else if style = ArtStyle.NEON_PUNK then
    ", neon-drenched cyberpunk cityscape, glowing neon lights, rainy streets, dystopian aesthetic."
  else
    ", in the style of " ++ style ++ "."

/-! ### AspectRatioMapper : `mapAspectRatioToImagen` -/

/-- Model of JavaScript `Math.abs` on the rational embedding of numbers. -/
def mathAbs (q : ℚ) : ℚ :=
  if q < 0 then -q else q

theorem mathAbs_eq_abs (q : ℚ) : mathAbs q = |q| := by
  unfold mathAbs
  rcases lt_or_le q 0 with h | h
  · rw [if_pos h, abs_of_neg h]
  · rw [if_neg (not_lt.mpr h), abs_of_nonneg h]

/-- Controls.tsx `supportedRatios` table, in the order the object literal
declares its keys (the order `for ... in` iterates them). -/
def supportedRatios : List (String × ℚ) :=
  [("1:1", 1), ("4:3", 4 / 3), ("3:4", 3 / 4), ("16:9", 16 / 9), ("9:16", 9 / 16)]

/-- Controls.tsx `mapAspectRatioToImagen` : start from `closest = '1:1'`
with its difference, then walk the table updating on a strictly smaller
difference. -/
def mapAspectRatioToImagen (ratio : ℚ) : String :=
  (supportedRatios.foldl
    (fun acc kv =>
      let diff := mathAbs (ratio - kv.2)
      if diff < acc.2 then (kv.1, diff) else acc)
    ("1:1", mathAbs (ratio - 1))).1

/-! ### Remote response shapes (the fields the code reads) -/

/-- An inline-data part of a candidate's content. -/
structure InlineData where
  data : String
deriving DecidableEq, Repr

/-- One content part: inline image bytes and/or text. -/
structure ContentPart where
  inlineData : Option InlineData
  text : Option String
deriving DecidableEq, Repr

/-- A candidate's content: an optional ordered list of parts. -/
structure ContentBody where
  parts : Option (List ContentPart)
deriving DecidableEq, Repr

/-- One candidate of a `generateContent` response. -/
structure Candidate where
  content : Option ContentBody
  finishReason : Option String
deriving DecidableEq, Repr

/-- Response-level prompt feedback. -/
structure PromptFeedback where
  blockReason : Option String
deriving DecidableEq, Repr

/-- Shape of a `generateContent` (image-conditioned) response. -/
structure GenerateContentResponse where
  candidates : Option (List Candidate)
  promptFeedback : Option PromptFeedback
deriving DecidableEq, Repr

/-- The `image` object inside a generated-image slot. -/
structure ImageObject where
  imageBytes : Option String
deriving DecidableEq, Repr

/-- One generated-image slot of a `generateImages` response. -/
structure GeneratedImage where
  image : Option ImageObject
deriving DecidableEq, Repr

/-- Shape of a `generateImages` (text-conditioned) response. -/
structure GenerateImagesResponse where
  generatedImages : Option (List GeneratedImage)
  promptFeedback : Option PromptFeedback
deriving DecidableEq, Repr

/-- The `{ image, prompt }` pair the operations return. -/
structure RegenerationResult where
  image : String
  prompt : String
deriving DecidableEq, Repr

/-! ### Requests the code builds, and the remote services as parameters -/

/-- The payload `generateContent` is called with: one inline-data part and
one text part, in that order. -/
structure GeminiRequest where
  imageData : String
  text : String
deriving DecidableEq, Repr

/-- The payload `generateImages` is called with. -/
structure ImagenRequest where
  prompt : String
  numberOfImages : Nat
  aspectRatio : String
deriving DecidableEq, Repr

/-- The process environment and the two remote operations, as black boxes:
each maps the request the code built to a response or a thrown transport
error. -/
structure Backend where
  apiKey : Option String
  geminiCall : GeminiRequest → Except String GenerateContentResponse
  imagenCall : ImagenRequest → Except String GenerateImagesResponse

/-- Controls.tsx `RegenerateOptions`. -/
structure RegenerateOptions where
  model : RegenerationModel
  style : String
  aspectRatio : ℚ
  base64Data : Option String
  prompt : Option String

/-- Controls.tsx `getAiClient`: throws when the API key is absent (or the
empty string, which is falsy); otherwise yields a client handle. -/
def getAiClient (apiKey : Option String) : Except String Unit :=
  if !jsTruthy apiKey then
    Except.error "Gemini API key is not set. Please configure the API_KEY environment variable."
  else
    Except.ok ()

/-! ### ImageToImageAdapter : `regenerateImageWithGemini` -/

/-- The `for (const part of parts)` loop: data of the first part that
carries inline image bytes. -/
def firstInline : List ContentPart → Option String
  | [] => none
  | p :: rest =>
    match p.inlineData with
    | some d => some d.data
    | none => firstInline rest

/-- `response.candidates?.[0]`. -/
def firstCandidate (response : GenerateContentResponse) : Option Candidate :=
  response.candidates.bind List.head?

/-- `candidate?.content?.parts`, with an absent list scanned as empty
(the loop body runs zero times either way). -/
def candidateParts (response : GenerateContentResponse) : List ContentPart :=
  (((firstCandidate response).bind Candidate.content).bind ContentBody.parts).getD []

/-- The Blocked message `regenerateImageWithGemini` throws, embedding
`candidate?.finishReason || response.promptFeedback?.blockReason`. -/
def blockedRegenMessage (response : GenerateContentResponse) : String :=
  "Image regeneration was blocked. Reason: " ++
    jsOrString ((firstCandidate response).bind Candidate.finishReason)
      (response.promptFeedback.bind PromptFeedback.blockReason) ++
    ". Please try a different style or frame."

/-- Controls.tsx `regenerateImageWithGemini`, response handling (the part
after the network call returned `response`). -/
def regenerateImageWithGemini (style : String) (response : GenerateContentResponse) :
    Except String RegenerationResult :=
  match firstInline (candidateParts response) with
  | some data => Except.ok ⟨data, getGeminiInstructionalPrompt style⟩
  | none =>
    if (firstCandidate response).bind Candidate.finishReason = some "SAFETY" ∨
       (firstCandidate response).bind Candidate.finishReason = some "RECITATION" ∨
       jsTruthy (response.promptFeedback.bind PromptFeedback.blockReason) then
      Except.error (blockedRegenMessage response)
    else
      Except.error "No image was generated by Gemini."

/-! ### TextToImageAdapter : `generateImageWithImagen` -/

/-- `response.generatedImages?.[0]?.image?.imageBytes`. -/
def imagenBytes (response : GenerateImagesResponse) : Option String :=
  ((response.generatedImages.bind List.head?).bind GeneratedImage.image).bind
    ImageObject.imageBytes

/-- The Blocked message `generateImageWithImagen` throws. -/
def blockedImagenMessage (response : GenerateImagesResponse) : String :=
  "Image generation was blocked. Reason: " ++
    jsToString (response.promptFeedback.bind PromptFeedback.blockReason) ++
    ". Please try a different frame."

/-- Controls.tsx `generateImageWithImagen`, response handling.  The
`if (generatedImage?.image?.imageBytes)` test is JavaScript truthiness,
so an empty byte string falls through. -/
def generateImageWithImagen (basePrompt style : String) (response : GenerateImagesResponse) :
    Except String RegenerationResult :=
  if jsTruthy (imagenBytes response) then
    Except.ok ⟨(imagenBytes response).getD "", basePrompt ++ getImagenStyleSuffix style⟩
  else if jsTruthy (response.promptFeedback.bind PromptFeedback.blockReason) then
    Except.error (blockedImagenMessage response)
  else
    Except.error "No image was generated by Imagen."

/-- The whole of `regenerateImageWithGemini` including client construction
and the network call; the second component counts remote invocations. -/
def runGeminiAdapter (env : Backend) (base64Data style : String) :
    Except String RegenerationResult × Nat :=
  match getAiClient env.apiKey with
  | Except.error e => (Except.error e, 0)
  | Except.ok _ =>
    match env.geminiCall ⟨base64Data, getGeminiInstructionalPrompt style⟩ with
    | Except.error e => (Except.error e, 1)
    | Except.ok response => (regenerateImageWithGemini style response, 1)

/-- The whole of `generateImageWithImagen` including client construction
and the network call; the second component counts remote invocations. -/
def runImagenAdapter (env : Backend) (basePrompt style : String) (aspectRatio : ℚ) :
    Except String RegenerationResult × Nat :=
  match getAiClient env.apiKey with
  | Except.error e => (Except.error e, 0)
  | Except.ok _ =>
    match env.imagenCall ⟨basePrompt ++ getImagenStyleSuffix style, 1,
        mapAspectRatioToImagen aspectRatio⟩ with
    | Except.error e => (Except.error e, 1)
    | Except.ok response => (generateImageWithImagen basePrompt style response, 1)

/-! ### RegenerationDispatcher : `regenerateImage` -/

/-- The `try` block of Controls.tsx `regenerateImage`: validation of the
per-model required input (JavaScript truthiness, so an absent and an empty
input are both rejected) and routing to the matching adapter. -/
def regenerateImageTry (env : Backend) (options : RegenerateOptions) :
    Except String RegenerationResult × Nat :=
  match options.model with
  | RegenerationModel.imagen =>
    if !jsTruthy options.prompt then
      (Except.error "A text prompt is required for the Imagen model.", 0)
    else
      runImagenAdapter env (options.prompt.getD "") options.style options.aspectRatio
  | RegenerationModel.gemini =>
    if !jsTruthy options.base64Data then
      (Except.error "Base64 image data is required for the Gemini model.", 0)
    else
      runGeminiAdapter env (options.base64Data.getD "") options.style

/-- The `catch` block of Controls.tsx `regenerateImage`: reclassify the
caught message (credential, rate limit, blocked pass-through, catch-all). -/
def normalizeError (model : RegenerationModel) (msg : String) : String :=
  if strIncludes msg "API key not valid" then
    "Your Gemini API key is not valid. Please check your configuration."
  else if strIncludes msg "429" || strIncludes msg "RESOURCE_EXHAUSTED" then
    "API rate limit or quota exceeded. Please try again later."
  else if strIncludes msg "blocked" then
    msg
  else
    "Failed to regenerate image with " ++ modelName model ++ ". Check the console for details."

/-- Controls.tsx `regenerateImage` (the dispatch operation): the `try`
body with every thrown message passed through the `catch` reclassifier. -/
def regenerateImage (env : Backend) (options : RegenerateOptions) :
    Except String RegenerationResult × Nat :=
  match regenerateImageTry env options with
  | (Except.ok r, n) => (Except.ok r, n)
  | (Except.error e, n) => (Except.error (normalizeError options.model e), n)

/-! ### `editImage` -/

/-- The prompt label on a successful edit:
`Edited with user prompt: "<prompt>"`. -/
def editRecordLabel (prompt : String) : String :=
  "Edited with user prompt: \"" ++ prompt ++ "\""

/-- The request `editImage` sends: the source image and the caller's
free-form prompt as the text part. -/
def editImageRequest (base64Data prompt : String) : GeminiRequest :=
  ⟨base64Data, prompt⟩

/-- The Blocked message `editImage` throws. -/
def blockedEditMessage (response : GenerateContentResponse) : String :=
  "Image editing was blocked. Reason: " ++
    jsOrString ((firstCandidate response).bind Candidate.finishReason)
      (response.promptFeedback.bind PromptFeedback.blockReason) ++
    ". Please modify your prompt and try again."

/-- The `try` block of Controls.tsx `editImage`. -/
def editImageTry (env : Backend) (base64Data prompt : String) :
    Except String RegenerationResult × Nat :=
  match getAiClient env.apiKey with
  | Except.error e => (Except.error e, 0)
  | Except.ok _ =>
    match env.geminiCall (editImageRequest base64Data prompt) with
    | Except.error e => (Except.error e, 1)
    | Except.ok response =>
      match firstInline (candidateParts response) with
      | some data => (Except.ok ⟨data, editRecordLabel prompt⟩, 1)
      | none =>
        if (firstCandidate response).bind Candidate.finishReason = some "SAFETY" ∨
           (firstCandidate response).bind Candidate.finishReason = some "RECITATION" ∨
           jsTruthy (response.promptFeedback.bind PromptFeedback.blockReason) then
          (Except.error (blockedEditMessage response), 1)
        else
          (Except.error "No image was generated in the API response for editing.", 1)

/-- The `catch` block of Controls.tsx `editImage`. -/
def normalizeEditError (msg : String) : String :=
  if strIncludes msg "API key not valid" then
    "Your Gemini API key is not valid. Please check your configuration."
  else if strIncludes msg "429" || strIncludes msg "RESOURCE_EXHAUSTED" then
    "API rate limit or quota exceeded. Please try again later."
  else if strIncludes msg "blocked" then
    msg
  else
    "Failed to edit image with Gemini. Check the console for details."

/-- Controls.tsx `editImage`. -/
def editImage (env : Backend) (base64Data prompt : String) :
    Except String RegenerationResult × Nat :=
  match editImageTry env base64Data prompt with
  | (Except.ok r, n) => (Except.ok r, n)
  | (Except.error e, n) => (Except.error (normalizeEditError e), n)

/-! ### Helper lemmas -/

theorem listStarts_append_self (l r : List Char) : listStarts (l ++ r) l = true := by
  induction l with
  | nil => simp [listStarts]
  | cons a t ih => simp [listStarts, ih]

theorem listHasSub_nil_right (l : List Char) : listHasSub l [] = true := by
  cases l <;> simp [listHasSub, listStarts]

theorem listHasSub_append_mid (a s b : List Char) : listHasSub (a ++ (s ++ b)) s = true := by
  induction a with
  | nil =>
    cases s with
    | nil => simpa using listHasSub_nil_right b
    | cons c t =>
      simp only [List.nil_append, List.cons_append, listHasSub]
      have := listStarts_append_self (c :: t) b
      simp only [List.cons_append] at this
      simp [this]
  | cons x xs ih => simp [listHasSub, ih]

theorem string_eq_empty_iff (s : String) : s = "" ↔ s.data = [] := by
  constructor
  · intro h; rw [h]
  · intro h; cases s; simp_all

theorem append_ne_empty (a b : String) (h : a ≠ "") : a ++ b ≠ "" := by
  intro hc
  apply h
  rw [string_eq_empty_iff] at hc ⊢
  rw [String.data_append] at hc
  exact (List.append_eq_nil.mp hc).1

theorem strIncludes_append_mid (a s b : String) : strIncludes (a ++ s ++ b) s = true := by
  unfold strIncludes
  rw [String.data_append, String.data_append, List.append_assoc]
  exact listHasSub_append_mid a.data s.data b.data

/-! ### C3 -/

/-- C3: for every positive input ratio, `mapAspectRatioToImagen` returns
the token of the `supportedRatios` table whose value minimizes the
absolute difference to the input, with ties broken by the fixed
enumeration order (the returned token sits at a position of the table all
of whose predecessors have strictly greater difference, and whose
difference is a global minimum); in particular it maps 1 to `1:1`, 16/9
to `16:9`, and 3/4 (= 0.75) to `3:4`. -/
theorem c3_nearest_supported_ratio :
    (∀ ratio : ℚ, 0 < ratio →
      ∃ pre post, ∃ v : ℚ,
        supportedRatios = pre ++ (mapAspectRatioToImagen ratio, v) :: post ∧
        (∀ p ∈ supportedRatios, |ratio - v| ≤ |ratio - p.2|) ∧
        (∀ p ∈ pre, |ratio - v| < |ratio - p.2|)) ∧
    mapAspectRatioToImagen 1 = "1:1" ∧
    mapAspectRatioToImagen (16 / 9) = "16:9" ∧
    mapAspectRatioToImagen (3 / 4) = "3:4" := by
  refine ⟨?_, ?_, ?_, ?_⟩
  · intro ratio _
    simp only [mapAspectRatioToImagen, supportedRatios, List.foldl_cons, List.foldl_nil, ite_self]
    split_ifs <;> dsimp only at * <;> simp only [mathAbs_eq_abs] at * <;>
      first
      | exact ⟨[], [("4:3", 4/3), ("3:4", 3/4), ("16:9", 16/9), ("9:16", 9/16)], 1, rfl,
          by intro p hp
             simp only [supportedRatios, List.mem_cons, List.not_mem_nil, or_false] at hp
             rcases hp with rfl | rfl | rfl | rfl | rfl <;> dsimp only <;> linarith,
          by intro p hp; exact absurd hp (List.not_mem_nil p)⟩
      | exact ⟨[("1:1", 1)], [("3:4", 3/4), ("16:9", 16/9), ("9:16", 9/16)], 4/3, rfl,
          by intro p hp
             simp only [supportedRatios, List.mem_cons, List.not_mem_nil, or_false] at hp
             rcases hp with rfl | rfl | rfl | rfl | rfl <;> dsimp only <;> linarith,
          by intro p hp
             simp only [List.mem_cons, List.not_mem_nil, or_false] at hp
             rcases hp with rfl <;> dsimp only <;> linarith⟩
      | exact ⟨[("1:1", 1), ("4:3", 4/3)], [("16:9", 16/9), ("9:16", 9/16)], 3/4, rfl,
          by intro p hp
             simp only [supportedRatios, List.mem_cons, List.not_mem_nil, or_false] at hp
             rcases hp with rfl | rfl | rfl | rfl | rfl <;> dsimp only <;> linarith,
          by intro p hp
             simp only [List.mem_cons, List.not_mem_nil, or_false] at hp
             rcases hp with rfl | rfl <;> dsimp only <;> linarith⟩
      | exact ⟨[("1:1", 1), ("4:3", 4/3), ("3:4", 3/4)], [("9:16", 9/16)], 16/9, rfl,
          by intro p hp
             simp only [supportedRatios, List.mem_cons, List.not_mem_nil, or_false] at hp
             rcases hp with rfl | rfl | rfl | rfl | rfl <;> dsimp only <;> linarith,
          by intro p hp
             simp only [List.mem_cons, List.not_mem_nil, or_false] at hp
             rcases hp with rfl | rfl | rfl <;> dsimp only <;> linarith⟩
      | exact ⟨[("1:1", 1), ("4:3", 4/3), ("3:4", 3/4), ("16:9", 16/9)], [], 9/16, rfl,
          by intro p hp
             simp only [supportedRatios, List.mem_cons, List.not_mem_nil, or_false] at hp
             rcases hp with rfl | rfl | rfl | rfl | rfl <;> dsimp only <;> linarith,
          by intro p hp
             simp only [List.mem_cons, List.not_mem_nil, or_false] at hp
             rcases hp with rfl | rfl | rfl | rfl <;> dsimp only <;> linarith⟩
  · norm_num [mapAspectRatioToImagen, supportedRatios, mathAbs, List.foldl_cons, List.foldl_nil]
  · norm_num [mapAspectRatioToImagen, supportedRatios, mathAbs, List.foldl_cons, List.foldl_nil]
  · norm_num [mapAspectRatioToImagen, supportedRatios, mathAbs, List.foldl_cons, List.foldl_nil]

/-- Witness for C3: the argmin property instantiated at the positive
input 1. -/
theorem c3_witness :
    0 < (1 : ℚ) ∧
    ∃ pre post, ∃ v : ℚ,
      supportedRatios = pre ++ (mapAspectRatioToImagen 1, v) :: post ∧
      (∀ p ∈ supportedRatios, |1 - v| ≤ |1 - p.2|) ∧
      (∀ p ∈ pre, |1 - v| < |1 - p.2|) :=
  ⟨by norm_num, c3_nearest_supported_ratio.1 1 (by norm_num)⟩

/-! ### C10 -/

/-- C10: the aspect-ratio mapper is total over all rational inputs — it
always returns one of the five supported tokens without signalling any
error — and for every input less than or equal to 0 it silently returns
`9:16`. -/
theorem c10_mapper_total (ratio : ℚ) :
    (mapAspectRatioToImagen ratio = "1:1" ∨ mapAspectRatioToImagen ratio = "4:3" ∨
     mapAspectRatioToImagen ratio = "3:4" ∨ mapAspectRatioToImagen ratio = "16:9" ∨
     mapAspectRatioToImagen ratio = "9:16") ∧
    (ratio ≤ 0 → mapAspectRatioToImagen ratio = "9:16") := by
  constructor
  · simp only [mapAspectRatioToImagen, supportedRatios, List.foldl_cons, List.foldl_nil]
    split_ifs <;> simp
  · intro h
    have e1 : mathAbs (ratio - 1) = 1 - ratio := by
      rw [mathAbs_eq_abs, abs_of_nonpos (by linarith)]; ring
    have e2 : mathAbs (ratio - 4/3) = 4/3 - ratio := by
      rw [mathAbs_eq_abs, abs_of_nonpos (by linarith)]; ring
    have e3 : mathAbs (ratio - 3/4) = 3/4 - ratio := by
      rw [mathAbs_eq_abs, abs_of_nonpos (by linarith)]; ring
    have e4 : mathAbs (ratio - 16/9) = 16/9 - ratio := by
      rw [mathAbs_eq_abs, abs_of_nonpos (by linarith)]; ring
    have e5 : mathAbs (ratio - 9/16) = 9/16 - ratio := by
      rw [mathAbs_eq_abs, abs_of_nonpos (by linarith)]; ring
    simp only [mapAspectRatioToImagen, supportedRatios, List.foldl_cons, List.foldl_nil,
      e1, e2, e3, e4, e5]
    norm_num

/-- Witness for C10: at the out-of-contract input −2 the mapper returns
`9:16`. -/
theorem c10_witness : (-2 : ℚ) ≤ 0 ∧ mapAspectRatioToImagen (-2) = "9:16" :=
  ⟨by norm_num, (c10_mapper_total (-2)).2 (by norm_num)⟩

/-! ### Concrete test fixtures -/

/-- A backend with a valid key whose remote operations both throw `msg`. -/
def errEnv (msg : String) : Backend :=
  ⟨some "key", fun _ => Except.error msg, fun _ => Except.error msg⟩

/-- A backend with a valid key whose image-conditioned operation returns
`r`. -/
def respEnv (r : GenerateContentResponse) : Backend :=
  ⟨some "key", fun _ => Except.ok r, fun _ => Except.error "unused"⟩

/-- Gemini-model options with image data present. -/
def gemOptions : RegenerateOptions :=
  ⟨RegenerationModel.gemini, "Neon Punk", 1, some "IMG", none⟩

/-- Imagen-model options with a text prompt present. -/
def imgOptions : RegenerateOptions :=
  ⟨RegenerationModel.imagen, "Neon Punk", 1, none, some "A cat"⟩

/-! ### C1 -/

theorem normalizeError_cases (m : RegenerationModel) (msg : String) :
    normalizeError m msg =
      "Your Gemini API key is not valid. Please check your configuration." ∨
    normalizeError m msg = "API rate limit or quota exceeded. Please try again later." ∨
    strIncludes (normalizeError m msg) "blocked" = true ∨
    normalizeError m msg =
      "Failed to regenerate image with " ++ modelName m ++ ". Check the console for details." := by
  unfold normalizeError
  split_ifs with h1 h2 h3
  · exact Or.inl rfl
  · exact Or.inr (Or.inl rfl)
  · exact Or.inr (Or.inr (Or.inl h3))
  · exact Or.inr (Or.inr (Or.inr rfl))

/-- C1 fails as stated: when the backend throws the unclassified message
`boom`, dispatch raises the catch-all error, and that error does not wrap
(contain) the original message. -/
theorem c1_counterexample :
    (regenerateImage (errEnv "boom") gemOptions).1 =
      Except.error "Failed to regenerate image with gemini. Check the console for details." ∧
    strIncludes "Failed to regenerate image with gemini. Check the console for details."
      "boom" = false :=
  ⟨rfl, by decide⟩

/-- C1 (amended): for every error raised inside dispatch that is not a
Blocked, InvalidCredentials or RateLimited case, dispatch raises the fixed
UnknownFailure message naming which model was in use — the original
message is logged, not embedded — so a caller only ever observes one of
the four categories (the credential message, the rate-limit message, a
message carrying the blocked classification, or the catch-all naming the
model), never a raw untranslated error. -/
theorem c1_error_taxonomy (env : Backend) (options : RegenerateOptions) (e : String) (n : Nat)
    (h : regenerateImage env options = (Except.error e, n)) :
    e = "Your Gemini API key is not valid. Please check your configuration." ∨
    e = "API rate limit or quota exceeded. Please try again later." ∨
    strIncludes e "blocked" = true ∨
    e = "Failed to regenerate image with " ++ modelName options.model ++
      ". Check the console for details." := by
  unfold regenerateImage at h
  rcases htry : regenerateImageTry env options with ⟨res, m⟩
  rw [htry] at h
  cases res with
  | ok r => simp at h
  | error msg =>
    simp only [Prod.mk.injEq, Except.error.injEq] at h
    obtain ⟨h1, -⟩ := h
    subst h1
    exact normalizeError_cases options.model msg

/-- Witness for C1 at the concrete unclassified failure `boom`. -/
theorem c1_witness :
    "Failed to regenerate image with gemini. Check the console for details." =
      "Your Gemini API key is not valid. Please check your configuration." ∨
    "Failed to regenerate image with gemini. Check the console for details." =
      "API rate limit or quota exceeded. Please try again later." ∨
    strIncludes "Failed to regenerate image with gemini. Check the console for details."
      "blocked" = true ∨
    "Failed to regenerate image with gemini. Check the console for details." =
      "Failed to regenerate image with " ++ modelName RegenerationModel.gemini ++
        ". Check the console for details." :=
  c1_error_taxonomy (errEnv "boom") gemOptions
    "Failed to regenerate image with gemini. Check the console for details." 1 rfl

/-! ### C2 -/

/-- C2 fails as stated: with `model = imagen` and no text prompt, the
error dispatch raises is the catch-all wrap, which does not state that a
text prompt is required (the validation message exists only inside the
`try` block and is rewrapped by dispatch's own `catch`). -/
theorem c2_counterexample :
    regenerateImage (errEnv "boom")
        ⟨RegenerationModel.imagen, "Neon Punk", 1, none, none⟩ =
      (Except.error "Failed to regenerate image with imagen. Check the console for details.", 0) ∧
    strIncludes "Failed to regenerate image with imagen. Check the console for details."
      "text prompt is required" = false :=
  ⟨rfl, by decide⟩

/-- C2 (amended): with the required per-model input absent (or empty),
dispatch fails before any network call — zero remote invocations — and
the `try` body raises the MissingInput message ("A text prompt is
required…" / "Base64 image data is required…"); dispatch's own catch
rewraps it, so the raised error is the catch-all naming the model. -/
theorem c2_missing_input (env : Backend) (options : RegenerateOptions) :
    (options.model = RegenerationModel.imagen → jsTruthy options.prompt = false →
      regenerateImageTry env options =
        (Except.error "A text prompt is required for the Imagen model.", 0) ∧
      regenerateImage env options =
        (Except.error "Failed to regenerate image with imagen. Check the console for details.",
          0)) ∧
    (options.model = RegenerationModel.gemini → jsTruthy options.base64Data = false →
      regenerateImageTry env options =
        (Except.error "Base64 image data is required for the Gemini model.", 0) ∧
      regenerateImage env options =
        (Except.error "Failed to regenerate image with gemini. Check the console for details.",
          0)) := by
  rcases options with ⟨m, sty, ar, b64, pr⟩
  constructor
  · intro hm hp
    subst hm
    have ht : regenerateImageTry env ⟨RegenerationModel.imagen, sty, ar, b64, pr⟩ =
        (Except.error "A text prompt is required for the Imagen model.", 0) := by
      simp [regenerateImageTry, hp]
    refine ⟨ht, ?_⟩
    unfold regenerateImage
    rw [ht]
    rfl
  · intro hm hp
    subst hm
    have ht : regenerateImageTry env ⟨RegenerationModel.gemini, sty, ar, b64, pr⟩ =
        (Except.error "Base64 image data is required for the Gemini model.", 0) := by
      simp [regenerateImageTry, hp]
    refine ⟨ht, ?_⟩
    unfold regenerateImage
    rw [ht]
    rfl

/-- Witness for C2 at concrete imagen options with no prompt. -/
theorem c2_witness :
    regenerateImageTry (errEnv "boom")
        ⟨RegenerationModel.imagen, "Neon Punk", 1, none, none⟩ =
      (Except.error "A text prompt is required for the Imagen model.", 0) ∧
    regenerateImage (errEnv "boom")
        ⟨RegenerationModel.imagen, "Neon Punk", 1, none, none⟩ =
      (Except.error "Failed to regenerate image with imagen. Check the console for details.",
        0) :=
  (c2_missing_input (errEnv "boom")
    ⟨RegenerationModel.imagen, "Neon Punk", 1, none, none⟩).1 rfl rfl

/-! ### C6 -/

/-- C6 fails as stated: a transport message that indicates rate
exhaustion (contains "429") but also contains the credential marker is
classified as InvalidCredentials, not RateLimited, because the credential
check runs first. -/
theorem c6_counterexample :
    strIncludes "Error 429: API key not valid" "429" = true ∧
    regenerateImage (errEnv "Error 429: API key not valid") gemOptions =
      (Except.error "Your Gemini API key is not valid. Please check your configuration.", 1) ∧
    ("Your Gemini API key is not valid. Please check your configuration." : String) ≠
      "API rate limit or quota exceeded. Please try again later." :=
  ⟨by decide, rfl, by decide⟩

/-- C6 (amended): for every error raised during the adapter call whose
message contains "429" or "RESOURCE_EXHAUSTED" and does not contain the
credential marker "API key not valid" (which is checked first), dispatch
raises the RateLimited error, regardless of which backend was invoked. -/
theorem c6_rate_limited (env : Backend) (options : RegenerateOptions) (e : String) (n : Nat)
    (h : regenerateImageTry env options = (Except.error e, n))
    (hrate : strIncludes e "429" = true ∨ strIncludes e "RESOURCE_EXHAUSTED" = true)
    (hcred : strIncludes e "API key not valid" = false) :
    regenerateImage env options =
      (Except.error "API rate limit or quota exceeded. Please try again later.", n) := by
  unfold regenerateImage
  rw [h]
  have hnorm : normalizeError options.model e =
      "API rate limit or quota exceeded. Please try again later." := by
    unfold normalizeError
    rcases hrate with h4 | h4 <;> simp [hcred, h4]
  simp [hnorm]

/-- Witness for C6: the same "HTTP 429" transport failure is classified
as RateLimited through both the gemini and the imagen path. -/
theorem c6_witness :
    regenerateImage (errEnv "HTTP 429") gemOptions =
      (Except.error "API rate limit or quota exceeded. Please try again later.", 1) ∧
    regenerateImage (errEnv "HTTP 429") imgOptions =
      (Except.error "API rate limit or quota exceeded. Please try again later.", 1) :=
  ⟨c6_rate_limited (errEnv "HTTP 429") gemOptions "HTTP 429" 1 rfl
      (Or.inl (by decide)) (by decide),
   c6_rate_limited (errEnv "HTTP 429") imgOptions "HTTP 429" 1 rfl
      (Or.inl (by decide)) (by decide)⟩

/-! ### C7 -/

/-- C7 fails as stated: an adapter-produced Blocked error whose
provider-stated reason contains "429" is rewrapped as RateLimited by the
dispatcher (the rate-limit check runs before the blocked pass-through),
so it is not re-raised unchanged. -/
theorem c7_counterexample :
    regenerateImageTry (respEnv ⟨none, some ⟨some "HTTP 429"⟩⟩) gemOptions =
      (Except.error
        "Image regeneration was blocked. Reason: HTTP 429. Please try a different style or frame.",
        1) ∧
    strIncludes
      "Image regeneration was blocked. Reason: HTTP 429. Please try a different style or frame."
      "blocked" = true ∧
    regenerateImage (respEnv ⟨none, some ⟨some "HTTP 429"⟩⟩) gemOptions =
      (Except.error "API rate limit or quota exceeded. Please try again later.", 1) ∧
    ("API rate limit or quota exceeded. Please try again later." : String) ≠
      "Image regeneration was blocked. Reason: HTTP 429. Please try a different style or frame." :=
  ⟨rfl, by decide, rfl, by decide⟩

/-- C7 (amended): for every error raised during the adapter call that
carries the blocked classification and does not also match the
credential or rate-limit markers (which are checked first), dispatch
re-raises the error unchanged, preserving the provider-stated reason. -/
theorem c7_blocked_passthrough (env : Backend) (options : RegenerateOptions) (e : String)
    (n : Nat)
    (h : regenerateImageTry env options = (Except.error e, n))
    (hb : strIncludes e "blocked" = true)
    (hc : strIncludes e "API key not valid" = false)
    (h4 : strIncludes e "429" = false)
    (hq : strIncludes e "RESOURCE_EXHAUSTED" = false) :
    regenerateImage env options = (Except.error e, n) := by
  unfold regenerateImage
  rw [h]
  have hnorm : normalizeError options.model e = e := by
    unfold normalizeError
    simp [hb, hc, h4, hq]
  simp [hnorm]

/-- Witness for C7: a Blocked error with reason `POLICY` passes through
dispatch unchanged. -/
theorem c7_witness :
    regenerateImage (respEnv ⟨none, some ⟨some "POLICY"⟩⟩) gemOptions =
      (Except.error
        "Image regeneration was blocked. Reason: POLICY. Please try a different style or frame.",
        1) :=
  c7_blocked_passthrough (respEnv ⟨none, some ⟨some "POLICY"⟩⟩) gemOptions
    "Image regeneration was blocked. Reason: POLICY. Please try a different style or frame." 1
    rfl (by decide) (by decide) (by decide) (by decide)

/-! ### C4 -/

/-- A response whose only candidate has no content and
`finishReason = SAFETY`. -/
def safetyResponse : GenerateContentResponse :=
  ⟨some [⟨none, some "SAFETY"⟩], none⟩

/-- C4: the image-conditioned adapter scans the first candidate's parts
in order and returns on the first part carrying inline image bytes,
paired with the instructional prompt; if no image part is found and the
finish reason is SAFETY/RECITATION or the response carries a (truthy)
block reason, it raises the Blocked error embedding that reason (in
particular the message contains "SAFETY" when `finishReason = SAFETY`,
"RECITATION" when `finishReason = RECITATION`, and the block reason when
the finish reason is absent); otherwise it raises the generic
NoImageProduced error. -/
theorem c4_gemini_response_handling (style : String) (response : GenerateContentResponse) :
    (∀ ps : List ContentPart,
      firstInline ps =
        ((ps.find? fun p => p.inlineData.isSome).bind ContentPart.inlineData).map
          InlineData.data) ∧
    (∀ d : String, firstInline (candidateParts response) = some d →
      regenerateImageWithGemini style response =
        Except.ok ⟨d, getGeminiInstructionalPrompt style⟩) ∧
    (firstInline (candidateParts response) = none →
      ((firstCandidate response).bind Candidate.finishReason = some "SAFETY" ∨
       (firstCandidate response).bind Candidate.finishReason = some "RECITATION" ∨
       jsTruthy (response.promptFeedback.bind PromptFeedback.blockReason)) →
      regenerateImageWithGemini style response = Except.error (blockedRegenMessage response)) ∧
    ((firstCandidate response).bind Candidate.finishReason = some "SAFETY" →
      strIncludes (blockedRegenMessage response) "SAFETY" = true) ∧
    ((firstCandidate response).bind Candidate.finishReason = some "RECITATION" →
      strIncludes (blockedRegenMessage response) "RECITATION" = true) ∧
    (∀ br : String, (firstCandidate response).bind Candidate.finishReason = none →
      response.promptFeedback.bind PromptFeedback.blockReason = some br →
      strIncludes (blockedRegenMessage response) br = true) ∧
    (firstInline (candidateParts response) = none →
      ¬((firstCandidate response).bind Candidate.finishReason = some "SAFETY" ∨
        (firstCandidate response).bind Candidate.finishReason = some "RECITATION" ∨
        jsTruthy (response.promptFeedback.bind PromptFeedback.blockReason)) →
      regenerateImageWithGemini style response =
        Except.error "No image was generated by Gemini.") := by
  refine ⟨?_, ?_, ?_, ?_, ?_, ?_, ?_⟩
  · intro ps
    induction ps with
    | nil => rfl
    | cons p t ih => cases hpd : p.inlineData <;> simp [firstInline, List.find?, hpd, ih]
  · intro d h
    unfold regenerateImageWithGemini
    rw [h]
  · intro h hsig
    unfold regenerateImageWithGemini
    rw [h, if_pos hsig]
  · intro hfr
    unfold blockedRegenMessage
    rw [hfr]
    have hj : jsOrString (some "SAFETY")
        (response.promptFeedback.bind PromptFeedback.blockReason) = "SAFETY" := rfl
    rw [hj]
    exact strIncludes_append_mid _ _ _
  · intro hfr
    unfold blockedRegenMessage
    rw [hfr]
    have hj : jsOrString (some "RECITATION")
        (response.promptFeedback.bind PromptFeedback.blockReason) = "RECITATION" := rfl
    rw [hj]
    exact strIncludes_append_mid _ _ _
  · intro br hfr hbr
    unfold blockedRegenMessage
    rw [hfr, hbr]
    have hj : jsOrString none (some br) = br := rfl
    rw [hj]
    exact strIncludes_append_mid _ _ _
  · intro h hns
    unfold regenerateImageWithGemini
    rw [h, if_neg hns]

/-- Witness for C4: a candidate with no inline-image part and
`finishReason = SAFETY` yields the Blocked error, whose message contains
"SAFETY". -/
theorem c4_witness :
    regenerateImageWithGemini "Neon Punk" safetyResponse =
      Except.error
        "Image regeneration was blocked. Reason: SAFETY. Please try a different style or frame." ∧
    strIncludes
      "Image regeneration was blocked. Reason: SAFETY. Please try a different style or frame."
      "SAFETY" = true := by
  constructor
  · exact (c4_gemini_response_handling "Neon Punk" safetyResponse).2.2.1 rfl (Or.inl rfl)
  · exact (c4_gemini_response_handling "Neon Punk" safetyResponse).2.2.2.1 rfl

/-! ### C5 -/

/-- C5: on a successful text-conditioned response carrying image bytes,
the adapter returns exactly those bytes together with the prompt
`basePrompt ++ styleSuffix style`, base description first and style
suffix appended. -/
theorem c5_imagen_prompt_concat (basePrompt style : String)
    (response : GenerateImagesResponse) (b : String)
    (hb : imagenBytes response = some b) (hne : b ≠ "") :
    generateImageWithImagen basePrompt style response =
      Except.ok ⟨b, basePrompt ++ getImagenStyleSuffix style⟩ := by
  unfold generateImageWithImagen
  rw [hb]
  have ht : jsTruthy (some b) = true := by simp [jsTruthy, hne]
  rw [if_pos ht]
  rfl

/-- Witness for C5 at a concrete one-image response: the returned prompt
is the base description followed by the Neon Punk suffix. -/
theorem c5_witness :
    generateImageWithImagen "A cat" "Neon Punk" ⟨some [⟨some ⟨some "BYTES"⟩⟩], none⟩ =
      Except.ok ⟨"BYTES",
        "A cat, neon-drenched cyberpunk cityscape, glowing neon lights, rainy streets, dystopian aesthetic."⟩ :=
  c5_imagen_prompt_concat "A cat" "Neon Punk" ⟨some [⟨some ⟨some "BYTES"⟩⟩], none⟩ "BYTES"
    rfl (by decide)

/-! ### C8 -/

/-- C8: over the eight named styles, the instructional prompts are
pairwise distinct, the style suffixes are pairwise distinct, all are
non-empty and, per style, the prompt differs from the suffix; for every
style value outside the named set, both functions return, without any
failure, a non-empty string that contains the style's own label. -/
theorem c8_style_catalog :
    (namedStyles.map getGeminiInstructionalPrompt).Nodup ∧
    (namedStyles.map getImagenStyleSuffix).Nodup ∧
    (∀ s ∈ namedStyles,
      getGeminiInstructionalPrompt s ≠ "" ∧ getImagenStyleSuffix s ≠ "" ∧
      getGeminiInstructionalPrompt s ≠ getImagenStyleSuffix s) ∧
    (∀ s : String, s ∉ namedStyles →
      getGeminiInstructionalPrompt s ≠ "" ∧
      strIncludes (getGeminiInstructionalPrompt s) s = true ∧
      getImagenStyleSuffix s ≠ "" ∧
      strIncludes (getImagenStyleSuffix s) s = true) := by
  refine ⟨by decide, by decide, by decide, ?_⟩
  intro s hs
  simp only [namedStyles, List.mem_cons, List.not_mem_nil, or_false, not_or] at hs
  obtain ⟨n1, n2, n3, n4, n5, n6, n7, n8⟩ := hs
  have hg : getGeminiInstructionalPrompt s =
      "Recreate this image in the style of a high-detail, cinematic image with the theme of \x27" ++
        s ++ "\x27." := by
    simp [getGeminiInstructionalPrompt, n1, n2, n3, n4, n5, n6, n7, n8]
  have hx : getImagenStyleSuffix s = ", in the style of " ++ s ++ "." := by
    simp [getImagenStyleSuffix, n1, n2, n3, n4, n5, n6, n7, n8]
  refine ⟨?_, ?_, ?_, ?_⟩
  · rw [hg]; exact append_ne_empty _ _ (append_ne_empty _ _ (by decide))
  · rw [hg]; exact strIncludes_append_mid _ _ _
  · rw [hx]; exact append_ne_empty _ _ (append_ne_empty _ _ (by decide))
  · rw [hx]; exact strIncludes_append_mid _ _ _

/-- Witness for C8 at the unnamed style label `Watercolor` and the named
style `Hyper-Realistic`. -/
theorem c8_witness :
    ("Watercolor" : String) ∉ namedStyles ∧
    getGeminiInstructionalPrompt "Watercolor" ≠ "" ∧
    strIncludes (getGeminiInstructionalPrompt "Watercolor") "Watercolor" = true ∧
    getImagenStyleSuffix "Watercolor" ≠ "" ∧
    strIncludes (getImagenStyleSuffix "Watercolor") "Watercolor" = true ∧
    ArtStyle.REALISTIC ∈ namedStyles ∧
    getGeminiInstructionalPrompt ArtStyle.REALISTIC ≠ getImagenStyleSuffix ArtStyle.REALISTIC := by
  have h1 := c8_style_catalog.2.2.2 "Watercolor" (by decide)
  have h2 := c8_style_catalog.2.2.1 ArtStyle.REALISTIC (by decide)
  exact ⟨by decide, h1.1, h1.2.1, h1.2.2.1, h1.2.2.2, by decide, h2.2.2⟩

/-! ### C9 -/

theorem editImageTry_ok_prompt (env : Backend) (b p : String) (r : RegenerationResult) (n : Nat)
    (h : editImageTry env b p = (Except.ok r, n)) : r.prompt = editRecordLabel p := by
  unfold editImageTry at h
  cases hk : getAiClient env.apiKey with
  | error e => rw [hk] at h; simp at h
  | ok u =>
    rw [hk] at h
    cases hcall : env.geminiCall (editImageRequest b p) with
    | error e => rw [hcall] at h; simp at h
    | ok response =>
      rw [hcall] at h
      dsimp only at h
      cases hf : firstInline (candidateParts response) with
      | some data =>
        rw [hf] at h
        simp only [Prod.mk.injEq, Except.ok.injEq] at h
        obtain ⟨h1, -⟩ := h
        rw [← h1]
      | none =>
        rw [hf] at h
        split_ifs at h <;> simp at h

/-- A response whose first candidate carries an inline-image part. -/
def inlineResponse : GenerateContentResponse :=
  ⟨some [⟨some ⟨some [⟨some ⟨"BYTES"⟩, none⟩]⟩, none⟩], none⟩

/-- C9: editImage sends the caller's free-form prompt unchanged as the
text part of the request (no style suffix), returns on success a result
whose prompt field is the edit-record label built around the supplied
prompt (and never the raw prompt itself, the label being 27 characters
longer), and normalizes errors with the same triage as dispatch — the
credential, rate-limit and blocked-pass-through branches agree with
`normalizeError` for the gemini backend, and anything else collapses to
the edit-specific catch-all. -/
theorem c9_edit_image (env : Backend) (b p : String) :
    (editImageRequest b p).text = p ∧
    (editImageRequest b p).imageData = b ∧
    (∀ r n, editImage env b p = (Except.ok r, n) → r.prompt = editRecordLabel p) ∧
    (editRecordLabel p).length = p.length + 27 ∧
    editRecordLabel p ≠ p ∧
    (∀ e : String,
      strIncludes e "API key not valid" = true ∨ strIncludes e "429" = true ∨
      strIncludes e "RESOURCE_EXHAUSTED" = true ∨ strIncludes e "blocked" = true →
      normalizeEditError e = normalizeError RegenerationModel.gemini e) ∧
    (∀ e : String,
      strIncludes e "API key not valid" = false → strIncludes e "429" = false →
      strIncludes e "RESOURCE_EXHAUSTED" = false → strIncludes e "blocked" = false →
      normalizeEditError e = "Failed to edit image with Gemini. Check the console for details.") := by
  have hlen : (editRecordLabel p).length = p.length + 27 := by
    have h1 : ("Edited with user prompt: \"" : String).length = 26 := rfl
    have h2 : ("\"" : String).length = 1 := rfl
    simp only [editRecordLabel, String.length_append, h1, h2]
    omega
  refine ⟨rfl, rfl, ?_, hlen, ?_, ?_, ?_⟩
  · intro r n h
    unfold editImage at h
    rcases he : editImageTry env b p with ⟨res, m⟩
    rw [he] at h
    cases res with
    | error msg => simp at h
    | ok r0 =>
      simp only [Prod.mk.injEq, Except.ok.injEq] at h
      obtain ⟨h1, -⟩ := h
      rw [← h1]
      exact editImageTry_ok_prompt env b p r0 m he
  · intro hc
    have := congrArg String.length hc
    rw [hlen] at this
    omega
  · intro e he
    unfold normalizeEditError normalizeError
    split_ifs <;> first | rfl | (rcases he with h | h | h | h <;> simp_all)
  · intro e h1 h2 h3 h4
    unfold normalizeEditError
    simp [h1, h2, h3, h4]

/-- Witness for C9 at a concrete successful edit and a concrete blocked
message. -/
theorem c9_witness :
    editImage (respEnv inlineResponse) "IMG" "make it blue" =
      (Except.ok ⟨"BYTES", "Edited with user prompt: \"make it blue\""⟩, 1) ∧
    ("Edited with user prompt: \"make it blue\"" : String) = editRecordLabel "make it blue" ∧
    normalizeEditError
        "Image editing was blocked. Reason: SAFETY. Please modify your prompt and try again." =
      normalizeError RegenerationModel.gemini
        "Image editing was blocked. Reason: SAFETY. Please modify your prompt and try again." := by
  refine ⟨rfl, ?_, ?_⟩
  · exact (c9_edit_image (respEnv inlineResponse) "IMG" "make it blue").2.2.1
      ⟨"BYTES", "Edited with user prompt: \"make it blue\""⟩ 1 rfl
  · exact (c9_edit_image (respEnv inlineResponse) "IMG" "make it blue").2.2.2.2.2.1
      "Image editing was blocked. Reason: SAFETY. Please modify your prompt and try again."
      (Or.inr (Or.inr (Or.inr (by decide))))

end Regen
